import Mathlib

/-!
Shallow embedding of the Wallet Provisioning & On-chain Allowance
Orchestration subsystem of the `intentkit` repository, and proofs of the
spec's claims about it.

Embedded components:
* `SafeOrch`  — the Safe Allowance Orchestrator (`deploy_safe_with_allowance`,
  `set_safe_token_spending_limit`). The module `intentkit/wallets/privy_safe.py`
  is not present in the source tree (only its tests are), so these definitions
  are modelled from the spec (§4.3, §4.4) and cross-checked against
  `tests/wallets/test_safe_deployment_nonce.py`.
* `Cdp`      — the custodial wallet adapter `CdpClient.get_wallet_provider`
  from `intentkit/clients/cdp.py`.
* `Wallet`   — the top-level provisioner `process_agent_wallet` from
  `intentkit/core/agent/wallet.py`.

External I/O (custody API, RPC, the persistent store) is made explicit: each
embedded operation returns, besides its result, the list of external calls and
store writes it performed, and threads the persistent record through.
-/

namespace IntentKit

/-- Python truthiness of an optional string: `None` and `""` are falsy. -/
def optStrTruthy : Option String → Bool
  | some s => s ≠ ""
  | none => false

/-- Python `x or d` for an optional string `x` and default `d`. -/
def strOr (x : Option String) (d : String) : String :=
  if optStrTruthy x then x.getD "" else d

namespace SafeOrch

/-- Chain registry entry: static per-network parameters. Field set mirrors the
`ChainConfig` records built in `tests/wallets/test_safe_deployment_nonce.py`
and the spec's Chain Registry (§2, §6). -/
structure ChainConfig where
  chain_id : Nat
  name : String
  safe_tx_service_url : String
  usdc_address : String
  safe_singleton_address : String
  allowance_module_address : String
deriving Repr, DecidableEq

/-- A human-readable decimal amount, denoting `mantissa / 10 ^ exp`
(e.g. `⟨1000, 1⟩` denotes `100.0`). -/
structure DecAmount where
  mantissa : Nat
  exp : Nat
deriving Repr, DecidableEq

/-- Modelled from the spec: §4.4 "converts the human-readable amount to the
token's smallest unit using integer arithmetic (never floating point)".
Missing source: `intentkit/wallets/privy_safe.py` (only its tests are in the
tree). -/
def DecAmount.toSmallestUnit (a : DecAmount) (decimals : Nat) : Nat :=
  a.mantissa * 10 ^ decimals / 10 ^ a.exp

/-- External calls and transactions issued by the orchestrator. -/
inductive SafeEvent where
  /-- RPC query of the account's current next nonce (`_get_safe_nonce`). -/
  | queryNonce (got : Nat)
  /-- On-chain `decimals()` query for a token (`_get_erc20_decimals`). -/
  | queryDecimals (token : String) (got : Nat)
  /-- "Enable allowance module" transaction, consuming `nonce`. -/
  | enableModule (nonce : Nat)
  /-- "Set spending limit" transaction for `token`, consuming `nonce`. -/
  | setLimit (token : String) (allowance_amount : Nat) (nonce : Nat)
  /-- Safe deployment transaction (`_deploy_safe` + confirmation wait). -/
  | deploySafe (safe_address : String)
  /-- Invocation of the spending-limit setter with its starting nonce. -/
  | setTokenLimitCall (token : String) (amount : DecAmount) (nonce : Option Nat)
deriving Repr, DecidableEq

def SafeEvent.isQueryNonce : SafeEvent → Bool
  | .queryNonce _ => true
  | _ => false

def SafeEvent.isEnableModule : SafeEvent → Bool
  | .enableModule _ => true
  | _ => false

def SafeEvent.isSetTokenLimitCall : SafeEvent → Bool
  | .setTokenLimitCall _ _ _ => true
  | _ => false

def SafeEvent.isSetLimit : SafeEvent → Bool
  | .setLimit _ _ _ => true
  | _ => false

/-- A transaction that consumes a nonce of the Safe's owner account. -/
def SafeEvent.consumesNonce : SafeEvent → Bool
  | .enableModule _ => true
  | .setLimit _ _ _ => true
  | _ => false

/-- On-chain state visible to the orchestrator for one Safe: deployment
status, allowance-module status, per-token configured limits, the account's
current next nonce, and the on-chain `decimals()` of each token. -/
structure SafeState where
  deployed : Bool
  moduleEnabled : Bool
  limits : List (String × Nat)
  chainNonce : Nat
  tokenDecimals : String → Nat

/-- Replace the binding of `k` in an association list (append if absent). -/
def setAssoc (l : List (String × Nat)) (k : String) (v : Nat) : List (String × Nat) :=
  match l with
  | [] => [(k, v)]
  | (k', v') :: rest => if k' = k then (k, v) :: rest else (k', v') :: setAssoc rest k v

/-- Result dictionary of the spending-limit setter (§4.4). -/
structure SetLimitResult where
  allowance_module_enabled : Bool
  spending_limit_configured : Bool
  next_nonce : Nat
deriving Repr, DecidableEq

/-- Modelled from the spec: §4.4 Spending Limit Setter
(`set_safe_token_spending_limit` of the missing `intentkit/wallets/privy_safe.py`).
Token decimals come from the argument when given, else from an on-chain query;
the amount is converted with integer arithmetic; the starting nonce comes from
the argument when given, else from a fresh chain query; if the allowance module
is not yet enabled it is enabled first (one nonce), then the limit is set (next
nonce); an existing limit for the same token is overwritten; returns
`next_nonce` = last consumed nonce + 1. -/
def set_safe_token_spending_limit (st : SafeState) (token_address : String)
    (spending_limit : DecAmount) (token_decimals : Option Nat) (nonce : Option Nat) :
    SetLimitResult × SafeState × List SafeEvent :=
  let decPair : Nat × List SafeEvent :=
    match token_decimals with
    | some d => (d, [])
    | none => (st.tokenDecimals token_address,
        [SafeEvent.queryDecimals token_address (st.tokenDecimals token_address)])
  let allowance_amount := spending_limit.toSmallestUnit decPair.1
  let noncePair : Nat × List SafeEvent :=
    match nonce with
    | some n => (n, [])
    | none => (st.chainNonce, [SafeEvent.queryNonce st.chainNonce])
  let n0 := noncePair.1
  if st.moduleEnabled then
    ({ allowance_module_enabled := true, spending_limit_configured := true,
       next_nonce := n0 + 1 },
     { st with limits := setAssoc st.limits token_address allowance_amount,
               chainNonce := n0 + 1 },
     decPair.2 ++ noncePair.2 ++ [SafeEvent.setLimit token_address allowance_amount n0])
  else
    ({ allowance_module_enabled := true, spending_limit_configured := true,
       next_nonce := n0 + 2 },
     { st with moduleEnabled := true,
               limits := setAssoc st.limits token_address allowance_amount,
               chainNonce := n0 + 2 },
     decPair.2 ++ noncePair.2 ++
       [SafeEvent.enableModule n0,
        SafeEvent.setLimit token_address allowance_amount (n0 + 1)])

/-- Result of `deploy_safe_with_allowance`. -/
structure DeployResult where
  safe_address : String
  next_nonce : Nat
deriving Repr, DecidableEq

/-- Modelled from the spec: §4.3 Safe Allowance Orchestrator
(`deploy_safe_with_allowance` of the missing `intentkit/wallets/privy_safe.py`).
The Safe address is a pure function of the owner key and salt (here a
parameter). If the Safe is undeployed, it is deployed and the local nonce
sequence starts at 0 with no chain query (a fresh Safe's nonce is 0); if it is
already deployed, the chain is queried once for the current nonce. The
spending-limit setter is then invoked once, with the chain registry's
reference stablecoin as the token and the established nonce as its explicit
starting nonce. -/
def deploy_safe_with_allowance (cc : ChainConfig) (predicted_safe_address : String)
    (st : SafeState) (weekly_spending_limit_usdc : DecAmount) :
    DeployResult × SafeState × List SafeEvent :=
  if st.deployed then
    let n0 := st.chainNonce
    let r := set_safe_token_spending_limit st cc.usdc_address
      weekly_spending_limit_usdc none (some n0)
    ({ safe_address := predicted_safe_address, next_nonce := r.1.next_nonce },
     r.2.1,
     [SafeEvent.queryNonce n0,
      SafeEvent.setTokenLimitCall cc.usdc_address weekly_spending_limit_usdc (some n0)]
       ++ r.2.2)
  else
    let st1 := { st with deployed := true, chainNonce := 0 }
    let r := set_safe_token_spending_limit st1 cc.usdc_address
      weekly_spending_limit_usdc none (some 0)
    ({ safe_address := predicted_safe_address, next_nonce := r.1.next_nonce },
     r.2.1,
     [SafeEvent.deploySafe predicted_safe_address,
      SafeEvent.setTokenLimitCall cc.usdc_address weekly_spending_limit_usdc (some 0)]
       ++ r.2.2)

end SafeOrch

namespace Cdp

/-- Output of `bip39_seed_to_eth_keys` (`intentkit/clients/cdp.py`): the key
material derived from a BIP39 seed via the standard Ethereum derivation path
`m/44'/60'/0'/0/0`. The derivation itself is performed by the external
`bip32`/`eth_keys` libraries, so the embedding abstracts it as a function
parameter (`CdpEnv.derive`). -/
structure DerivedKeys where
  private_key : String
  public_key : String
  address : String
deriving Repr, DecidableEq

/-- Parsed form of the legacy v1 `cdp_wallet_data` JSON blob:
`json.loads` yields either a non-dict value or a dict whose
`default_address_id` and `seed` entries may each be absent (`.get` → `None`)
or present. -/
inductive CdpWalletBlob where
  | notDict
  | dict (default_address_id : Option String) (seed : Option String)
deriving Repr, DecidableEq

/-- The fields of the stored agent record read by `CdpClient.get_wallet_provider`. -/
structure CdpAgentData where
  evm_wallet_address : Option String
  cdp_wallet_data : Option CdpWalletBlob
deriving Repr, DecidableEq

/-- External calls and store writes issued by `CdpClient.get_wallet_provider`. -/
inductive CdpEvent where
  /-- `cdp_client.evm.import_account(name=..., private_key=...)`. -/
  | importAccount (name private_key : String)
  /-- `cdp_client.evm.create_account(name=...)`. -/
  | createAccount (name : String)
  /-- `cdp_client.close()`. -/
  | closeClient
  /-- `agent_data.evm_wallet_address = address; await agent_data.save()`. -/
  | saveAddress (address : String)
deriving Repr, DecidableEq

/-- Environment of one `get_wallet_provider` call: the agent id, the stored
record, the address the custody service would assign to a brand-new account,
and the (external-library) seed derivation function. -/
structure CdpEnv where
  agent_id : String
  agent_data : CdpAgentData
  new_account_address : String
  derive : String → DerivedKeys

/-- Embedding of `CdpClient.get_wallet_provider` (`intentkit/clients/cdp.py`,
lines 66–133). `cached` is `self._wallet_provider` (the address held by a
previously built provider, if any). Returns the address of the wallet
provider it builds, or the message of the `ValueError` it raises, together
with the external calls performed. -/
def get_wallet_provider (env : CdpEnv) (cached : Option String) :
    Except String String × List CdpEvent :=
  match cached with
  | some a => (.ok a, [])
  | none =>
    if optStrTruthy env.agent_data.evm_wallet_address then
      (.ok (env.agent_data.evm_wallet_address.getD ""), [])
    else
      let migrated : Except String (Option String × List CdpEvent) :=
        match env.agent_data.cdp_wallet_data with
        | none => .ok (none, [])
        | some .notDict => .error "Invalid wallet data format"
        | some (.dict default_address_id seed) =>
          if optStrTruthy default_address_id && optStrTruthy seed then
            let keys := env.derive (seed.getD "")
            if keys.address ≠ default_address_id.getD "" then
              .error "Bad wallet data, seed does not match default_address_id"
            else
              .ok (some keys.address,
                   [CdpEvent.importAccount env.agent_id keys.private_key])
          else
            .ok (none, [])
      match migrated with
      | .error e => (.error e, [])
      | .ok (addr, evs1) =>
        let created : String × List CdpEvent :=
          if optStrTruthy addr then (addr.getD "", [])
          else (env.new_account_address, [CdpEvent.createAccount env.agent_id])
        (.ok created.1,
         evs1 ++ created.2 ++ [CdpEvent.closeClient, CdpEvent.saveAddress created.1])

end Cdp

namespace Wallet

/-- Round a rational to the nearest integer, ties to the even integer
(the `ROUND_HALF_EVEN` rounding of Python's default `Decimal` context). -/
def roundHalfEven (q : ℚ) : ℤ :=
  let f := ⌊q⌋
  if q - f < 1/2 then f
  else if 1/2 < q - f then f + 1
  else if f % 2 = 0 then f else f + 1

/-- Embedding of `Decimal(str(x)).quantize(Decimal("0.000001"))`
(`process_agent_wallet`, lines 32–41): the value quantized to six decimal
places with half-even rounding, represented as a count of 10⁻⁶ units. -/
def quantize6 (q : ℚ) : ℤ := roundHalfEven (q * 1000000)

/-- The agent-configuration fields read by `process_agent_wallet`. -/
structure Agent where
  id : String
  wallet_provider : String
  weekly_spending_limit : Option ℚ
  network_id : Option String
  readonly_wallet_address : Option String
  owner : Option String
deriving Repr, DecidableEq

/-- Parsed form of a stored `privy_wallet_data` JSON string: either invalid
JSON (`json.JSONDecodeError` on parse) or an object, of which the embedding
keeps the four entries `process_agent_wallet` reads (`privy_wallet_id`,
`privy_wallet_address`, `network_id`, `status`); entries it writes but never
reads back (`owner_key_quorum_id`, `provider`, the Safe fields of
`create_privy_safe_wallet`'s result) are carried opaquely inside
`SafeWalletResult.blob`. -/
inductive PrivyBlob where
  | invalid
  | obj (privy_wallet_id privy_wallet_address network_id status : Option String)
deriving Repr, DecidableEq

/-- The stored per-agent wallet record fields touched by `process_agent_wallet`. -/
structure AgentData where
  evm_wallet_address : Option String
  privy_wallet_data : Option PrivyBlob
  native_wallet_data : Option String
deriving Repr, DecidableEq

/-- The system-configuration fields consulted by `process_agent_wallet`:
`cdp_api_key_id`, and `chain_provider` whose `get_chain_config(network).rpc_url`
lookup is modelled as a function (`none` models the lookup raising, which the
source catches and logs). -/
structure Config where
  cdp_api_key_id : Option String
  chain_provider : Option (String → Option String)

/-- A wallet returned by `privy_client.create_wallet`. -/
structure PrivyWallet where
  id : String
  address : String
deriving Repr, DecidableEq

/-- Result of `create_privy_safe_wallet`: the Safe's address
(`smart_wallet_address`) plus the full wallet-data dict that gets stored. -/
structure SafeWalletResult where
  smart_wallet_address : String
  blob : PrivyBlob
deriving Repr, DecidableEq

/-- Results supplied by the external collaborators of `process_agent_wallet`. -/
structure Env where
  create_privy_safe_wallet : SafeWalletResult
  quorum_id : String
  privy_wallet : PrivyWallet
  native_address : String
  native_blob : String
  cdp_address : String

/-- Store accesses and external calls issued by `process_agent_wallet`,
in execution order. -/
inductive WEvent where
  /-- `await AgentData.get(agent.id)`. -/
  | getAgentData
  /-- `await AgentData.patch(agent.id, {...})`. -/
  | patchAgentData
  /-- `config.chain_provider.get_chain_config(network_id)`. -/
  | chainConfigQuery (network_id : String)
  /-- `await get_cdp_wallet_provider(agent)`. -/
  | callGetCdpWalletProvider
  /-- `await create_privy_safe_wallet(...)` with the arguments passed. -/
  | callCreatePrivySafeWallet (agent_id network_id : String) (rpc_url : Option String)
      (weekly_spending_limit_usdc : Option ℚ)
      (existing_privy_wallet_id existing_privy_wallet_address : Option String)
  /-- `await privy_client.create_key_quorum(user_ids=..., ...)`. -/
  | callCreateKeyQuorum (user_ids : List String)
  /-- `await privy_client.create_wallet(owner_key_quorum_id=...)`. -/
  | callCreateWallet (owner_key_quorum_id : String)
  /-- `create_native_wallet(network_id)`. -/
  | callCreateNativeWallet (network_id : String)
deriving Repr, DecidableEq

def WEvent.isCallCreatePrivySafeWallet : WEvent → Bool
  | .callCreatePrivySafeWallet _ _ _ _ _ _ => true
  | _ => false

/-- `IntentKitAPIError(status_code, key, message)`. -/
structure IKError where
  status : Nat
  key : String
  message : String
deriving Repr, DecidableEq

/-- RPC-URL resolution through `config.chain_provider` (lines 82–91 and
134–141): nothing is queried when no chain provider is configured, and a
raising lookup is caught, leaving the URL `None`. -/
def resolveRpc (cfg : Config) (network_id : String) : Option String × List WEvent :=
  match cfg.chain_provider with
  | none => (none, [])
  | some f => (f network_id, [WEvent.chainConfigQuery network_id])

/-- Embedding of lines 115–282 of `process_agent_wallet`: the dispatch on
provider kind once no early return applied. Returns the call result, the
final stored record, and the events in execution order. -/
def dispatchProvision (cfg : Config) (env : Env) (agent : Agent) (store : AgentData) :
    Except IKError AgentData × AgentData × List WEvent :=
  if optStrTruthy store.evm_wallet_address then
    (.ok store, store, [WEvent.getAgentData])
  else if optStrTruthy cfg.cdp_api_key_id = true ∧ agent.wallet_provider = "cdp" then
    let store1 := { store with evm_wallet_address := some env.cdp_address }
    (.ok store1, store1,
     [WEvent.getAgentData, WEvent.callGetCdpWalletProvider, WEvent.getAgentData])
  else if agent.wallet_provider = "readonly" then
    let store1 := { store with evm_wallet_address := agent.readonly_wallet_address }
    (.ok store1, store1, [WEvent.getAgentData, WEvent.patchAgentData])
  else if agent.wallet_provider = "safe" then
    let network_id := strOr agent.network_id "base-mainnet"
    let rpc := resolveRpc cfg network_id
    let parsed : Option String × Option String :=
      match store.privy_wallet_data with
      | some (.obj pid paddr _ _) => (pid, paddr)
      | _ => (none, none)
    if optStrTruthy parsed.1 then
      let r := env.create_privy_safe_wallet
      let store1 := { store with
        evm_wallet_address := some r.smart_wallet_address,
        privy_wallet_data := some r.blob }
      (.ok store1, store1,
       [WEvent.getAgentData] ++ rpc.2 ++
       [WEvent.callCreatePrivySafeWallet agent.id network_id rpc.1
          agent.weekly_spending_limit parsed.1 parsed.2,
        WEvent.patchAgentData])
    else if ¬ optStrTruthy agent.owner then
      (.error ⟨400, "PrivyUserIdMissing",
         "Agent owner (Privy user ID) is required for Privy wallets"⟩,
       store, [WEvent.getAgentData] ++ rpc.2)
    else if ¬ (agent.owner.getD "").startsWith "did:privy:" then
      (.error ⟨400, "PrivyUserIdInvalid",
         "Only Privy-authenticated users (did:privy:...) can create Privy wallets"⟩,
       store, [WEvent.getAgentData] ++ rpc.2)
    else
      let w := env.privy_wallet
      let preBlob : PrivyBlob :=
        .obj (some w.id) (some w.address) (some network_id) (some "privy_created")
      let store1 := { store with privy_wallet_data := some preBlob }
      let r := env.create_privy_safe_wallet
      let store2 := { store1 with
        evm_wallet_address := some r.smart_wallet_address,
        privy_wallet_data := some r.blob }
      (.ok store2, store2,
       [WEvent.getAgentData] ++ rpc.2 ++
       [WEvent.callCreateKeyQuorum [agent.owner.getD ""],
        WEvent.callCreateWallet env.quorum_id,
        WEvent.patchAgentData,
        WEvent.callCreatePrivySafeWallet agent.id network_id rpc.1
          agent.weekly_spending_limit (some w.id) (some w.address),
        WEvent.patchAgentData])
  else if agent.wallet_provider = "privy" then
    if ¬ optStrTruthy agent.owner then
      (.error ⟨400, "PrivyUserIdMissing",
         "Agent owner (Privy user ID) is required for Privy wallets"⟩,
       store, [WEvent.getAgentData])
    else if ¬ (agent.owner.getD "").startsWith "did:privy:" then
      (.error ⟨400, "PrivyUserIdInvalid",
         "Only Privy-authenticated users (did:privy:...) can create Privy wallets"⟩,
       store, [WEvent.getAgentData])
    else
      let w := env.privy_wallet
      let blob : PrivyBlob :=
        .obj (some w.id) (some w.address)
          (some (strOr agent.network_id "base-mainnet")) (some "created")
      let store1 := { store with evm_wallet_address := some w.address,
                                 privy_wallet_data := some blob }
      (.ok store1, store1,
       [WEvent.getAgentData, WEvent.callCreateKeyQuorum [agent.owner.getD ""],
        WEvent.callCreateWallet env.quorum_id, WEvent.patchAgentData])
  else if agent.wallet_provider = "native" then
    let network_id := strOr agent.network_id "base-mainnet"
    let store1 := { store with evm_wallet_address := some env.native_address,
                               native_wallet_data := some env.native_blob }
    (.ok store1, store1,
     [WEvent.getAgentData, WEvent.callCreateNativeWallet network_id,
      WEvent.patchAgentData])
  else
    (.ok store, store, [WEvent.getAgentData])

/-- Embedding of `process_agent_wallet` (`intentkit/core/agent/wallet.py`,
lines 14–282). Takes the system config, the external collaborators' results,
the agent, the two previous-state arguments, and the stored record; returns
the result (or the raised `IntentKitAPIError`), the final stored record, and
the store accesses and external calls in execution order. -/
def process_agent_wallet (cfg : Config) (env : Env) (agent : Agent)
    (old_wallet_provider : Option String) (old_weekly_spending_limit : Option ℚ)
    (store : AgentData) :
    Except IKError AgentData × AgentData × List WEvent :=
  let current_wallet_provider := agent.wallet_provider
  let old_limit := old_weekly_spending_limit.map quantize6
  let new_limit := agent.weekly_spending_limit.map quantize6
  if old_wallet_provider ≠ none ∧ old_wallet_provider.getD "" ≠ "none" ∧
      old_wallet_provider.getD "" ≠ current_wallet_provider then
    (.error ⟨400, "WalletProviderChangeNotAllowed",
       "Cannot change wallet provider once set"⟩, store, [])
  else if old_wallet_provider ≠ none ∧ old_wallet_provider.getD "" ≠ "none" ∧
      old_wallet_provider.getD "" = current_wallet_provider then
    if (current_wallet_provider = "safe" ∨ current_wallet_provider = "privy") ∧
        old_limit ≠ new_limit then
      if store.privy_wallet_data.isSome then
        if current_wallet_provider = "safe" then
          let parsed : Option String × Option String × Option String :=
            match store.privy_wallet_data with
            | some (.obj pid paddr pnet _) => (pid, paddr, pnet)
            | _ => (none, none, none)
          if optStrTruthy parsed.1 = true ∧ optStrTruthy parsed.2.1 = true then
            let network_id := strOr agent.network_id (strOr parsed.2.2 "base-mainnet")
            let rpc := resolveRpc cfg network_id
            let r := env.create_privy_safe_wallet
            let store1 := { store with
              evm_wallet_address := some r.smart_wallet_address,
              privy_wallet_data := some r.blob }
            (.ok store1, store1,
             [WEvent.getAgentData] ++ rpc.2 ++
             [WEvent.callCreatePrivySafeWallet agent.id network_id rpc.1
                (some (agent.weekly_spending_limit.getD 0)) parsed.1 parsed.2.1,
              WEvent.patchAgentData])
          else
            (.ok store, store, [WEvent.getAgentData, WEvent.getAgentData])
        else
          (.ok store, store, [WEvent.getAgentData, WEvent.getAgentData])
      else
        (.ok store, store, [WEvent.getAgentData, WEvent.getAgentData])
    else
      (.ok store, store, [WEvent.getAgentData])
  else
    dispatchProvision cfg env agent store

end Wallet

/-! ## Theorems -/

/-- Unfolding lemma for `optStrTruthy` at a present value. -/
theorem optStrTruthy_some (s : String) : optStrTruthy (some s) = decide (s ≠ "") :=
  rfl

/-- Unfolding lemma for `optStrTruthy` at an absent value. -/
theorem optStrTruthy_none : optStrTruthy none = false := rfl

/-- Binding of `k` after `setAssoc l k v` is `v`. -/
theorem SafeOrch.lookup_setAssoc (l : List (String × Nat)) (k : String) (v : Nat) :
    (SafeOrch.setAssoc l k v).lookup k = some v := by
  induction l with
  | nil => simp [SafeOrch.setAssoc, List.lookup]
  | cons hd tl ih =>
    obtain ⟨k', v'⟩ := hd
    by_cases h : k' = k
    · simp [SafeOrch.setAssoc, h, List.lookup]
    · have hbeq : (k == k') = false := by
        simp only [beq_eq_false_iff_ne]
        exact fun hh => h hh.symm
      simp [SafeOrch.setAssoc, h, List.lookup, ih, hbeq]

/-- C3: deploying allowance for an undeployed Safe threads nonces from 0: the
nonce-consuming transactions are exactly the enable-module transaction at
nonce 0 followed by the set-limit transaction at nonce 1, the call returns
`next_nonce = 2`, the spending-limit setter is invoked exactly once with
starting nonce 0 and the chain registry's reference stablecoin as the token,
and the chain is never queried for a nonce. -/
theorem SafeOrch.deploy_fresh_safe_nonce_threading (cc : SafeOrch.ChainConfig)
    (addr : String) (st : SafeOrch.SafeState) (w : SafeOrch.DecAmount)
    (hdep : st.deployed = false) (hmod : st.moduleEnabled = false) :
    (SafeOrch.deploy_safe_with_allowance cc addr st w).2.2.filter
        SafeOrch.SafeEvent.consumesNonce =
      [SafeOrch.SafeEvent.enableModule 0,
       SafeOrch.SafeEvent.setLimit cc.usdc_address
         (w.toSmallestUnit (st.tokenDecimals cc.usdc_address)) 1] ∧
    (SafeOrch.deploy_safe_with_allowance cc addr st w).1.next_nonce = 2 ∧
    (SafeOrch.deploy_safe_with_allowance cc addr st w).2.2.filter
        SafeOrch.SafeEvent.isSetTokenLimitCall =
      [SafeOrch.SafeEvent.setTokenLimitCall cc.usdc_address w (some 0)] ∧
    (SafeOrch.deploy_safe_with_allowance cc addr st w).2.2.countP
        SafeOrch.SafeEvent.isQueryNonce = 0 := by
  simp [SafeOrch.deploy_safe_with_allowance, SafeOrch.set_safe_token_spending_limit,
    hdep, hmod, SafeOrch.SafeEvent.consumesNonce, SafeOrch.SafeEvent.isSetTokenLimitCall,
    SafeOrch.SafeEvent.isQueryNonce, List.filter, List.countP, List.countP.go]

/-- C3 witness at a concrete chain config, state, and amount. -/
theorem SafeOrch.deploy_fresh_safe_nonce_threading_witness :
    (SafeOrch.deploy_safe_with_allowance
        ⟨123, "Test Chain", "http://safe.tx", "0xUSDC", "0xSingleton", "0xModule"⟩
        "0xAa"
        ⟨false, false, [], 999, fun _ => 6⟩
        ⟨1000, 1⟩).1.next_nonce = 2 :=
  (SafeOrch.deploy_fresh_safe_nonce_threading
    ⟨123, "Test Chain", "http://safe.tx", "0xUSDC", "0xSingleton", "0xModule"⟩
    "0xAa" ⟨false, false, [], 999, fun _ => 6⟩ ⟨1000, 1⟩ rfl rfl).2.1

/-- C4: deploying allowance for an already-deployed Safe with module already
enabled and current on-chain nonce `N` skips the module-enable step, queries
the chain exactly once for the nonce, issues the set-limit transaction as the
only nonce-consuming transaction at nonce `N`, and returns
`next_nonce = N + 1`. -/
theorem SafeOrch.deploy_existing_safe_skips_enable (cc : SafeOrch.ChainConfig)
    (addr : String) (st : SafeOrch.SafeState) (w : SafeOrch.DecAmount) (N : Nat)
    (hdep : st.deployed = true) (hmod : st.moduleEnabled = true)
    (hn : st.chainNonce = N) :
    (SafeOrch.deploy_safe_with_allowance cc addr st w).2.2.countP
        SafeOrch.SafeEvent.isQueryNonce = 1 ∧
    (SafeOrch.deploy_safe_with_allowance cc addr st w).2.2.filter
        SafeOrch.SafeEvent.consumesNonce =
      [SafeOrch.SafeEvent.setLimit cc.usdc_address
         (w.toSmallestUnit (st.tokenDecimals cc.usdc_address)) N] ∧
    (SafeOrch.deploy_safe_with_allowance cc addr st w).1.next_nonce = N + 1 := by
  simp [SafeOrch.deploy_safe_with_allowance, SafeOrch.set_safe_token_spending_limit,
    hdep, hmod, hn, SafeOrch.SafeEvent.consumesNonce, SafeOrch.SafeEvent.isQueryNonce,
    List.filter, List.countP, List.countP.go]

/-- C4 witness: an already-deployed Safe at on-chain nonce 5 yields
`next_nonce = 6`. -/
theorem SafeOrch.deploy_existing_safe_skips_enable_witness :
    (SafeOrch.deploy_safe_with_allowance
        ⟨123, "Test Chain", "http://safe.tx", "0xUSDC", "0xSingleton", "0xModule"⟩
        "0xAa"
        ⟨true, true, [], 5, fun _ => 6⟩
        ⟨1000, 1⟩).1.next_nonce = 5 + 1 :=
  (SafeOrch.deploy_existing_safe_skips_enable
    ⟨123, "Test Chain", "http://safe.tx", "0xUSDC", "0xSingleton", "0xModule"⟩
    "0xAa" ⟨true, true, [], 5, fun _ => 6⟩ ⟨1000, 1⟩ 5 rfl rfl rfl).2.2

/-- C6: two sequential spending-limit calls for the same token on the same
Safe: the enable-module transaction is issued at most once overall — exactly
when the module was not yet enabled, and never by the second call; each call
returns `next_nonce` = its last consumed nonce + 1 (the first call's
nonce-consuming transactions are `[enable n1, setLimit (n1+1)]` or
`[setLimit n1]`, the second call's are `[setLimit n2]`); and the second call
overwrites the first call's limit for the token. -/
theorem SafeOrch.set_limit_overwrites_same_token (st : SafeOrch.SafeState)
    (tok : String) (a1 a2 : SafeOrch.DecAmount) (d n1 n2 : Nat) :
    ((SafeOrch.set_safe_token_spending_limit st tok a1 (some d) (some n1)).2.2 ++
      (SafeOrch.set_safe_token_spending_limit
        (SafeOrch.set_safe_token_spending_limit st tok a1 (some d) (some n1)).2.1
        tok a2 (some d) (some n2)).2.2).countP SafeOrch.SafeEvent.isEnableModule =
      (if st.moduleEnabled then 0 else 1) ∧
    (SafeOrch.set_safe_token_spending_limit st tok a1 (some d) (some n1)).2.2.filter
        SafeOrch.SafeEvent.consumesNonce =
      (if st.moduleEnabled then
        [SafeOrch.SafeEvent.setLimit tok (a1.toSmallestUnit d) n1]
       else
        [SafeOrch.SafeEvent.enableModule n1,
         SafeOrch.SafeEvent.setLimit tok (a1.toSmallestUnit d) (n1 + 1)]) ∧
    (SafeOrch.set_safe_token_spending_limit
        (SafeOrch.set_safe_token_spending_limit st tok a1 (some d) (some n1)).2.1
        tok a2 (some d) (some n2)).2.2.filter SafeOrch.SafeEvent.consumesNonce =
      [SafeOrch.SafeEvent.setLimit tok (a2.toSmallestUnit d) n2] ∧
    (SafeOrch.set_safe_token_spending_limit st tok a1 (some d) (some n1)).1.next_nonce =
      (if st.moduleEnabled then n1 else n1 + 1) + 1 ∧
    (SafeOrch.set_safe_token_spending_limit
        (SafeOrch.set_safe_token_spending_limit st tok a1 (some d) (some n1)).2.1
        tok a2 (some d) (some n2)).1.next_nonce = n2 + 1 ∧
    (SafeOrch.set_safe_token_spending_limit
        (SafeOrch.set_safe_token_spending_limit st tok a1 (some d) (some n1)).2.1
        tok a2 (some d) (some n2)).2.1.limits.lookup tok =
      some (a2.toSmallestUnit d) := by
  cases hm : st.moduleEnabled <;>
    simp [SafeOrch.set_safe_token_spending_limit, hm, SafeOrch.lookup_setAssoc,
      SafeOrch.SafeEvent.isEnableModule, SafeOrch.SafeEvent.consumesNonce,
      List.filter, List.countP, List.countP.go]

/-- C7: every set-limit transaction issued by a spending-limit call carries
the allowance amount obtained from the human-readable amount by integer
arithmetic with the token's decimal precision,
`mantissa * 10 ^ decimals / 10 ^ exp`; in particular the human amount `100.0`
(mantissa 1000, one decimal) with 6-decimal precision yields exactly
100000000 smallest units. -/
theorem SafeOrch.set_limit_integer_amount_conversion (st : SafeOrch.SafeState)
    (tok : String) (a : SafeOrch.DecAmount) (d n : Nat) :
    (SafeOrch.set_safe_token_spending_limit st tok a (some d) (some n)).2.2.filter
        SafeOrch.SafeEvent.isSetLimit =
      [SafeOrch.SafeEvent.setLimit tok (a.mantissa * 10 ^ d / 10 ^ a.exp)
        (if st.moduleEnabled then n else n + 1)] ∧
    SafeOrch.DecAmount.toSmallestUnit ⟨1000, 1⟩ 6 = 100000000 := by
  refine ⟨?_, by norm_num [SafeOrch.DecAmount.toSmallestUnit]⟩
  cases hm : st.moduleEnabled <;>
    simp [SafeOrch.set_safe_token_spending_limit, hm,
      SafeOrch.DecAmount.toSmallestUnit, SafeOrch.SafeEvent.isSetLimit, List.filter]

/-- C5: in the custodial adapter's migration path (no stored address, legacy
seed blob with recorded address and seed present), a mismatch between the
address derived from the seed and the blob's recorded address fails with the
wallet-data-corrupt `ValueError` and performs no external call — in
particular `import_account` is never invoked — while a match imports the
derived key and adopts and persists the derived address. -/
theorem Cdp.migration_verifies_derived_address
    (env1 env2 : Cdp.CdpEnv) (daid1 seed1 daid2 seed2 : String)
    (h1addr : optStrTruthy env1.agent_data.evm_wallet_address = false)
    (h1blob : env1.agent_data.cdp_wallet_data =
      some (.dict (some daid1) (some seed1)))
    (h1d : daid1 ≠ "") (h1s : seed1 ≠ "")
    (h1mis : (env1.derive seed1).address ≠ daid1)
    (h2addr : optStrTruthy env2.agent_data.evm_wallet_address = false)
    (h2blob : env2.agent_data.cdp_wallet_data =
      some (.dict (some daid2) (some seed2)))
    (h2d : daid2 ≠ "") (h2s : seed2 ≠ "")
    (h2eq : (env2.derive seed2).address = daid2) :
    Cdp.get_wallet_provider env1 none =
      (.error "Bad wallet data, seed does not match default_address_id", []) ∧
    Cdp.get_wallet_provider env2 none =
      (.ok daid2,
       [Cdp.CdpEvent.importAccount env2.agent_id (env2.derive seed2).private_key,
        Cdp.CdpEvent.closeClient, Cdp.CdpEvent.saveAddress daid2]) := by
  constructor
  · simp [Cdp.get_wallet_provider, h1addr, h1blob, optStrTruthy_some, h1d, h1s, h1mis]
  · simp [Cdp.get_wallet_provider, h2addr, h2blob, optStrTruthy_some, h2d, h2s, h2eq]

/-- C5 witness: a blob recording address `0xright` whose seed derives
`0xwrong` is rejected with no import; one whose seed derives `0xright` is
imported and persisted. -/
theorem Cdp.migration_verifies_derived_address_witness :
    Cdp.get_wallet_provider
        ⟨"agent-1", ⟨none, some (.dict (some "0xright") (some "seedhex"))⟩,
         "0xnew", fun _ => ⟨"pk", "pub", "0xwrong"⟩⟩ none =
      (.error "Bad wallet data, seed does not match default_address_id", []) ∧
    Cdp.get_wallet_provider
        ⟨"agent-1", ⟨none, some (.dict (some "0xright") (some "seedhex"))⟩,
         "0xnew", fun _ => ⟨"pk", "pub", "0xright"⟩⟩ none =
      (.ok "0xright",
       [Cdp.CdpEvent.importAccount "agent-1" "pk",
        Cdp.CdpEvent.closeClient, Cdp.CdpEvent.saveAddress "0xright"]) :=
  Cdp.migration_verifies_derived_address
    ⟨"agent-1", ⟨none, some (.dict (some "0xright") (some "seedhex"))⟩,
     "0xnew", fun _ => ⟨"pk", "pub", "0xwrong"⟩⟩
    ⟨"agent-1", ⟨none, some (.dict (some "0xright") (some "seedhex"))⟩,
     "0xnew", fun _ => ⟨"pk", "pub", "0xright"⟩⟩
    "0xright" "seedhex" "0xright" "seedhex"
    rfl rfl (by decide) (by decide) (by decide)
    rfl rfl (by decide) (by decide) rfl

/-- C1: a second provisioning call with identical configuration for an agent
whose record already has an address returns that record unchanged, issuing
only the store read and no creation call; and the custodial adapter's
`get_wallet_provider` returns the stored address — or the cached provider's
address — with no external call at all, in particular without
`create_account` or `import_account`. -/
theorem provisioning_idempotent_existing_address
    (cfg : Wallet.Config) (env : Wallet.Env) (agent : Wallet.Agent)
    (store : Wallet.AgentData) (cenv : Cdp.CdpEnv) (cachedAddr : String)
    (haddr : optStrTruthy store.evm_wallet_address = true)
    (hcaddr : optStrTruthy cenv.agent_data.evm_wallet_address = true) :
    Wallet.process_agent_wallet cfg env agent (some agent.wallet_provider)
        agent.weekly_spending_limit store =
      (.ok store, store, [Wallet.WEvent.getAgentData]) ∧
    Cdp.get_wallet_provider cenv none =
      (.ok (cenv.agent_data.evm_wallet_address.getD ""), []) ∧
    Cdp.get_wallet_provider cenv (some cachedAddr) = (.ok cachedAddr, []) := by
  refine ⟨?_, ?_, rfl⟩
  · by_cases hn : agent.wallet_provider = "none"
    · simp [Wallet.process_agent_wallet, Wallet.dispatchProvision, hn, haddr]
    · simp [Wallet.process_agent_wallet, hn, haddr]
  · simp [Cdp.get_wallet_provider, hcaddr]

/-- C1 witness at a concrete agent, record, and adapter environment. -/
theorem provisioning_idempotent_existing_address_witness :
    Wallet.process_agent_wallet ⟨none, none⟩
        ⟨⟨"0xSmart", .obj none none none none⟩, "q", ⟨"w", "0xW"⟩, "0xN", "nb", "0xC"⟩
        { id := "agent-1", wallet_provider := "cdp",
          weekly_spending_limit := some 100, network_id := none,
          readonly_wallet_address := none, owner := none }
        (some "cdp") (some 100)
        { evm_wallet_address := some "0xA", privy_wallet_data := none,
          native_wallet_data := none } =
      (.ok { evm_wallet_address := some "0xA", privy_wallet_data := none,
             native_wallet_data := none },
       { evm_wallet_address := some "0xA", privy_wallet_data := none,
         native_wallet_data := none },
       [Wallet.WEvent.getAgentData]) ∧
    Cdp.get_wallet_provider
        ⟨"agent-1", ⟨some "0xA", none⟩, "0xnew", fun _ => ⟨"pk", "pub", "0xD"⟩⟩ none =
      (.ok ((some "0xA").getD ""), []) ∧
    Cdp.get_wallet_provider
        ⟨"agent-1", ⟨some "0xA", none⟩, "0xnew", fun _ => ⟨"pk", "pub", "0xD"⟩⟩
        (some "0xCached") =
      (.ok "0xCached", []) :=
  provisioning_idempotent_existing_address ⟨none, none⟩
    ⟨⟨"0xSmart", .obj none none none none⟩, "q", ⟨"w", "0xW"⟩, "0xN", "nb", "0xC"⟩
    { id := "agent-1", wallet_provider := "cdp",
      weekly_spending_limit := some 100, network_id := none,
      readonly_wallet_address := none, owner := none }
    { evm_wallet_address := some "0xA", privy_wallet_data := none,
      native_wallet_data := none }
    ⟨"agent-1", ⟨some "0xA", none⟩, "0xnew", fun _ => ⟨"pk", "pub", "0xD"⟩⟩
    "0xCached" (by decide) (by decide)

/-- C2: a provisioning call whose `old_wallet_provider` is set, not `"none"`,
and different from the agent's current provider kind fails with the
provider-immutability error, with no external call or store access performed
and the stored record left unchanged. -/
theorem provider_change_rejected (cfg : Wallet.Config) (env : Wallet.Env)
    (agent : Wallet.Agent) (owp : String) (owsl : Option ℚ)
    (store : Wallet.AgentData)
    (h1 : owp ≠ "none") (h2 : owp ≠ agent.wallet_provider) :
    Wallet.process_agent_wallet cfg env agent (some owp) owsl store =
      (.error ⟨400, "WalletProviderChangeNotAllowed",
        "Cannot change wallet provider once set"⟩, store, []) := by
  simp [Wallet.process_agent_wallet, h1, h2]

/-- C2 witness: changing provider kind `cdp` to `safe` is rejected with the
record untouched. -/
theorem provider_change_rejected_witness :
    Wallet.process_agent_wallet ⟨none, none⟩
        ⟨⟨"0xSmart", .obj none none none none⟩, "q", ⟨"w", "0xW"⟩, "0xN", "nb", "0xC"⟩
        { id := "agent-1", wallet_provider := "safe",
          weekly_spending_limit := some 100, network_id := none,
          readonly_wallet_address := none, owner := none }
        (some "cdp") (some 100)
        { evm_wallet_address := some "0xA", privy_wallet_data := none,
          native_wallet_data := none } =
      (.error ⟨400, "WalletProviderChangeNotAllowed",
        "Cannot change wallet provider once set"⟩,
       { evm_wallet_address := some "0xA", privy_wallet_data := none,
         native_wallet_data := none }, []) :=
  provider_change_rejected ⟨none, none⟩
    ⟨⟨"0xSmart", .obj none none none none⟩, "q", ⟨"w", "0xW"⟩, "0xN", "nb", "0xC"⟩
    { id := "agent-1", wallet_provider := "safe",
      weekly_spending_limit := some 100, network_id := none,
      readonly_wallet_address := none, owner := none }
    "cdp" (some 100)
    { evm_wallet_address := some "0xA", privy_wallet_data := none,
      native_wallet_data := none }
    (by decide) (by decide)

/-- C8 counterexample: with provider kind `privy` unchanged and the weekly
spending limit changed (100 → 200), `process_agent_wallet` does not
re-invoke any limit-update path — it performs only two store reads and
returns the stored record unchanged, contradicting the claim for the
delegated provider. -/
theorem privy_limit_change_not_reinvoked_counterexample :
    Wallet.process_agent_wallet ⟨none, none⟩
        ⟨⟨"0xSmart", .obj none none none none⟩, "q", ⟨"w", "0xW"⟩, "0xN", "nb", "0xC"⟩
        { id := "agent-1", wallet_provider := "privy",
          weekly_spending_limit := some 200, network_id := none,
          readonly_wallet_address := none, owner := some "did:privy:u" }
        (some "privy") (some 100)
        { evm_wallet_address := some "0xSafe",
          privy_wallet_data := some (.obj (some "pw") (some "0xO") none none),
          native_wallet_data := none } =
      (.ok { evm_wallet_address := some "0xSafe",
             privy_wallet_data := some (.obj (some "pw") (some "0xO") none none),
             native_wallet_data := none },
       { evm_wallet_address := some "0xSafe",
         privy_wallet_data := some (.obj (some "pw") (some "0xO") none none),
         native_wallet_data := none },
       [Wallet.WEvent.getAgentData, Wallet.WEvent.getAgentData]) := by
  have h : Wallet.quantize6 100 ≠ Wallet.quantize6 200 := by
    norm_num [Wallet.quantize6, Wallet.roundHalfEven]
  simp [Wallet.process_agent_wallet, h]

/-- C8 (amended): with provider kind unchanged and equal to `safe`, stored
wallet data containing both a wallet id and an address, and the weekly
spending limit changed (after six-decimal quantization), the provisioner
re-invokes the Safe Allowance Orchestrator's limit-update path — one
`create_privy_safe_wallet` call reusing the existing wallet id and address,
with no new key-quorum or custody-wallet creation — and returns the updated
record; for the delegated (`privy`) provider kind a limit change triggers no
action and the stored record is returned unchanged. -/
theorem limit_change_reinvokes_safe_orchestrator_only
    (cfg : Wallet.Config) (env : Wallet.Env) (agentS agentP : Wallet.Agent)
    (store storeP : Wallet.AgentData) (owsl : Option ℚ)
    (pid paddr : String) (pnet pstat : Option String)
    (hS : agentS.wallet_provider = "safe")
    (hblob : store.privy_wallet_data =
      some (.obj (some pid) (some paddr) pnet pstat))
    (hpid : pid ≠ "") (hpaddr : paddr ≠ "")
    (hlim : owsl.map Wallet.quantize6 ≠
      agentS.weekly_spending_limit.map Wallet.quantize6)
    (hP : agentP.wallet_provider = "privy")
    (hlimP : owsl.map Wallet.quantize6 ≠
      agentP.weekly_spending_limit.map Wallet.quantize6)
    (hblobP : storeP.privy_wallet_data.isSome = true) :
    Wallet.process_agent_wallet cfg env agentS (some "safe") owsl store =
      (.ok { store with
          evm_wallet_address := some env.create_privy_safe_wallet.smart_wallet_address,
          privy_wallet_data := some env.create_privy_safe_wallet.blob },
       { store with
          evm_wallet_address := some env.create_privy_safe_wallet.smart_wallet_address,
          privy_wallet_data := some env.create_privy_safe_wallet.blob },
       [Wallet.WEvent.getAgentData] ++
         (Wallet.resolveRpc cfg (strOr agentS.network_id (strOr pnet "base-mainnet"))).2 ++
         [Wallet.WEvent.callCreatePrivySafeWallet agentS.id
            (strOr agentS.network_id (strOr pnet "base-mainnet"))
            (Wallet.resolveRpc cfg (strOr agentS.network_id (strOr pnet "base-mainnet"))).1
            (some (agentS.weekly_spending_limit.getD 0)) (some pid) (some paddr),
          Wallet.WEvent.patchAgentData]) ∧
    Wallet.process_agent_wallet cfg env agentP (some "privy") owsl storeP =
      (.ok storeP, storeP,
       [Wallet.WEvent.getAgentData, Wallet.WEvent.getAgentData]) := by
  constructor
  · simp [Wallet.process_agent_wallet, hS, hblob, optStrTruthy_some, hpid, hpaddr, hlim]
  · simp [Wallet.process_agent_wallet, hP, hlimP, hblobP]

/-- C8 witness: a `safe` agent at limit 100 → 200 with complete stored wallet
data, and a `privy` agent with the same limit change. -/
theorem limit_change_reinvokes_safe_orchestrator_only_witness :
    Wallet.process_agent_wallet ⟨none, none⟩
        ⟨⟨"0xSmart", .obj none none none none⟩, "q", ⟨"w", "0xW"⟩, "0xN", "nb", "0xC"⟩
        { id := "agent-1", wallet_provider := "safe",
          weekly_spending_limit := some 200, network_id := none,
          readonly_wallet_address := none, owner := some "did:privy:u" }
        (some "safe") (some 100)
        { evm_wallet_address := some "0xSafe",
          privy_wallet_data := some (.obj (some "pw") (some "0xO") none none),
          native_wallet_data := none } =
      (.ok { evm_wallet_address := some "0xSmart",
             privy_wallet_data := some (.obj none none none none),
             native_wallet_data := none },
       { evm_wallet_address := some "0xSmart",
         privy_wallet_data := some (.obj none none none none),
         native_wallet_data := none },
       [Wallet.WEvent.getAgentData] ++
         (Wallet.resolveRpc ⟨none, none⟩ (strOr none (strOr none "base-mainnet"))).2 ++
         [Wallet.WEvent.callCreatePrivySafeWallet "agent-1"
            (strOr none (strOr none "base-mainnet"))
            (Wallet.resolveRpc ⟨none, none⟩ (strOr none (strOr none "base-mainnet"))).1
            (some ((some (200 : ℚ)).getD 0)) (some "pw") (some "0xO"),
          Wallet.WEvent.patchAgentData]) ∧
    Wallet.process_agent_wallet ⟨none, none⟩
        ⟨⟨"0xSmart", .obj none none none none⟩, "q", ⟨"w", "0xW"⟩, "0xN", "nb", "0xC"⟩
        { id := "agent-2", wallet_provider := "privy",
          weekly_spending_limit := some 200, network_id := none,
          readonly_wallet_address := none, owner := some "did:privy:u" }
        (some "privy") (some 100)
        { evm_wallet_address := some "0xP",
          privy_wallet_data := some (.obj (some "pw") (some "0xO") none none),
          native_wallet_data := none } =
      (.ok { evm_wallet_address := some "0xP",
             privy_wallet_data := some (.obj (some "pw") (some "0xO") none none),
             native_wallet_data := none },
       { evm_wallet_address := some "0xP",
         privy_wallet_data := some (.obj (some "pw") (some "0xO") none none),
         native_wallet_data := none },
       [Wallet.WEvent.getAgentData, Wallet.WEvent.getAgentData]) :=
  limit_change_reinvokes_safe_orchestrator_only ⟨none, none⟩
    ⟨⟨"0xSmart", .obj none none none none⟩, "q", ⟨"w", "0xW"⟩, "0xN", "nb", "0xC"⟩
    { id := "agent-1", wallet_provider := "safe",
      weekly_spending_limit := some 200, network_id := none,
      readonly_wallet_address := none, owner := some "did:privy:u" }
    { id := "agent-2", wallet_provider := "privy",
      weekly_spending_limit := some 200, network_id := none,
      readonly_wallet_address := none, owner := some "did:privy:u" }
    { evm_wallet_address := some "0xSafe",
      privy_wallet_data := some (.obj (some "pw") (some "0xO") none none),
      native_wallet_data := none }
    { evm_wallet_address := some "0xP",
      privy_wallet_data := some (.obj (some "pw") (some "0xO") none none),
      native_wallet_data := none }
    (some 100) "pw" "0xO" none none
    rfl rfl (by decide) (by decide)
    (by norm_num [Wallet.quantize6, Wallet.roundHalfEven])
    rfl
    (by norm_num [Wallet.quantize6, Wallet.roundHalfEven])
    rfl

/-- C9 counterexample: the old and new weekly limits 0.0000004 and 0.0000006
differ by less than 0.000001, yet `process_agent_wallet` treats them as
different — they quantize (half-even, six decimals) to 0 and 1 respectively,
so the limit-update path is re-invoked (one `create_privy_safe_wallet` call)
instead of the record being returned unchanged. -/
theorem sub_micro_limit_difference_reinvokes_counterexample :
    (|(4 : ℚ) / 10000000 - 6 / 10000000| < 1 / 1000000) ∧
    (Wallet.process_agent_wallet ⟨none, none⟩
        ⟨⟨"0xSmart", .obj none none none none⟩, "q", ⟨"w", "0xW"⟩, "0xN", "nb", "0xC"⟩
        { id := "agent-1", wallet_provider := "safe",
          weekly_spending_limit := some (6 / 10000000), network_id := none,
          readonly_wallet_address := none, owner := some "did:privy:u" }
        (some "safe") (some (4 / 10000000))
        { evm_wallet_address := some "0xSafe",
          privy_wallet_data := some (.obj (some "pw") (some "0xO") none none),
          native_wallet_data := none }).2.2.countP
      Wallet.WEvent.isCallCreatePrivySafeWallet = 1 := by
  constructor
  · rw [abs_lt]
    constructor <;> norm_num
  · have h : Wallet.quantize6 (4 / 10000000) ≠ Wallet.quantize6 (6 / 10000000) := by
      norm_num [Wallet.quantize6, Wallet.roundHalfEven]
    simp [Wallet.process_agent_wallet, h, Wallet.resolveRpc,
      Wallet.WEvent.isCallCreatePrivySafeWallet, List.countP, List.countP.go]

/-- C9 (amended): `process_agent_wallet` compares the old and new weekly
spending limits only after quantizing both to six decimal places (half-even),
so every pair of limit values with equal six-decimal quantizations is treated
as equal: with the provider kind unchanged, the limit-update path is not
re-invoked and the stored record is returned unchanged. (Values differing by
less than 0.000001 can still quantize differently and are then treated as
changed.) -/
theorem quantized_equal_limits_treated_equal (cfg : Wallet.Config)
    (env : Wallet.Env) (agent : Wallet.Agent) (store : Wallet.AgentData)
    (owp : String) (owsl : Option ℚ)
    (hprov : owp = agent.wallet_provider) (hnone : owp ≠ "none")
    (hq : owsl.map Wallet.quantize6 =
      agent.weekly_spending_limit.map Wallet.quantize6) :
    Wallet.process_agent_wallet cfg env agent (some owp) owsl store =
      (.ok store, store, [Wallet.WEvent.getAgentData]) := by
  subst hprov
  simp [Wallet.process_agent_wallet, hnone, hq]

/-- C9 witness: limits 0.0000004 and 0.00000044 differ, but both quantize to
0, so the record is returned unchanged with no limit update. -/
theorem quantized_equal_limits_treated_equal_witness :
    Wallet.process_agent_wallet ⟨none, none⟩
        ⟨⟨"0xSmart", .obj none none none none⟩, "q", ⟨"w", "0xW"⟩, "0xN", "nb", "0xC"⟩
        { id := "agent-1", wallet_provider := "safe",
          weekly_spending_limit := some (11 / 25000000), network_id := none,
          readonly_wallet_address := none, owner := some "did:privy:u" }
        (some "safe") (some (4 / 10000000))
        { evm_wallet_address := some "0xSafe",
          privy_wallet_data := some (.obj (some "pw") (some "0xO") none none),
          native_wallet_data := none } =
      (.ok { evm_wallet_address := some "0xSafe",
             privy_wallet_data := some (.obj (some "pw") (some "0xO") none none),
             native_wallet_data := none },
       { evm_wallet_address := some "0xSafe",
         privy_wallet_data := some (.obj (some "pw") (some "0xO") none none),
         native_wallet_data := none },
       [Wallet.WEvent.getAgentData]) :=
  quantized_equal_limits_treated_equal ⟨none, none⟩
    ⟨⟨"0xSmart", .obj none none none none⟩, "q", ⟨"w", "0xW"⟩, "0xN", "nb", "0xC"⟩
    { id := "agent-1", wallet_provider := "safe",
      weekly_spending_limit := some (11 / 25000000), network_id := none,
      readonly_wallet_address := none, owner := some "did:privy:u" }
    { evm_wallet_address := some "0xSafe",
      privy_wallet_data := some (.obj (some "pw") (some "0xO") none none),
      native_wallet_data := none }
    "safe" (some (4 / 10000000)) rfl (by decide)
    (by norm_num [Wallet.quantize6, Wallet.roundHalfEven])

/-- C10: for an agent with provider kind `cdp` and no stored address, when no
`cdp_api_key_id` is configured, `process_agent_wallet` performs no
provisioning action — no external call and no store write, only the store
read — and returns the record still lacking an address, raising no error. -/
theorem cdp_without_api_key_is_noop (cfg : Wallet.Config) (env : Wallet.Env)
    (agent : Wallet.Agent) (owp : Option String) (owsl : Option ℚ)
    (store : Wallet.AgentData)
    (hprov : agent.wallet_provider = "cdp")
    (haddr : optStrTruthy store.evm_wallet_address = false)
    (hkey : optStrTruthy cfg.cdp_api_key_id = false)
    (hold : owp = none ∨ owp = some "none" ∨ owp = some "cdp") :
    Wallet.process_agent_wallet cfg env agent owp owsl store =
      (.ok store, store, [Wallet.WEvent.getAgentData]) := by
  rcases hold with h | h | h <;> subst h <;>
    simp [Wallet.process_agent_wallet, Wallet.dispatchProvision, hprov, haddr, hkey]

/-- C10 witness: a `cdp` agent with an empty record and no API key
configured gets its record back unchanged. -/
theorem cdp_without_api_key_is_noop_witness :
    Wallet.process_agent_wallet ⟨none, none⟩
        ⟨⟨"0xSmart", .obj none none none none⟩, "q", ⟨"w", "0xW"⟩, "0xN", "nb", "0xC"⟩
        { id := "agent-1", wallet_provider := "cdp",
          weekly_spending_limit := some 100, network_id := none,
          readonly_wallet_address := none, owner := none }
        none (some 100)
        { evm_wallet_address := none, privy_wallet_data := none,
          native_wallet_data := none } =
      (.ok { evm_wallet_address := none, privy_wallet_data := none,
             native_wallet_data := none },
       { evm_wallet_address := none, privy_wallet_data := none,
         native_wallet_data := none },
       [Wallet.WEvent.getAgentData]) :=
  cdp_without_api_key_is_noop ⟨none, none⟩
    ⟨⟨"0xSmart", .obj none none none none⟩, "q", ⟨"w", "0xW"⟩, "0xN", "nb", "0xC"⟩
    { id := "agent-1", wallet_provider := "cdp",
      weekly_spending_limit := some 100, network_id := none,
      readonly_wallet_address := none, owner := none }
    none (some 100)
    { evm_wallet_address := none, privy_wallet_data := none,
      native_wallet_data := none }
    rfl rfl rfl (Or.inl rfl)

end IntentKit
